import Mathlib

/-!
Shallow embedding of `trae_agent/utils/openai_client.py` (the `OpenAIClient`
LLM-provider adapter): the message model, the outbound schema translation
(`parse_messages`, `parse_tool_call`, `parse_tool_call_result`), the retrying
call loop inside `chat`, the response decomposition, and the capability query
`supports_tool_calling`.  External effects are passed explicitly: the network
is a function from attempt index to a result, and `json.loads` is a
parameter (the `json` module is outside the repository); `json.dumps` on a
string-valued mapping is modelled concretely.  Numeric request parameters
(temperature, top-p) are carried as integers since no claim inspects their
value, only their presence.
-/

/-- Arguments mapping of a tool call (Python mapping with string keys;
values are modelled as strings since no behaviour in this unit inspects
them beyond JSON decode success). -/
abbrev JsonObject := List (String × String)

/-- `trae_agent.tools.base.ToolCall`. -/
structure ToolCall where
  call_id : String
  name : String
  arguments : JsonObject
  id : Option String
deriving DecidableEq, Repr

/-- `trae_agent.tools.base.ToolResult`: `result` is the optional success
payload (the code applies `str(...)`, modelled as the string itself),
`error` is the optional error string. -/
structure ToolResult where
  call_id : String
  result : Option String
  error : Option String
deriving DecidableEq, Repr

/-- `trae_agent.utils.llm_basics.LLMMessage`. -/
structure LLMMessage where
  role : String
  content : Option String
  tool_call : Option ToolCall
  tool_result : Option ToolResult
deriving DecidableEq, Repr

/-- `trae_agent.utils.llm_basics.LLMUsage` (the four token counters copied
in `chat`). -/
structure LLMUsage where
  input_tokens : Nat
  output_tokens : Nat
  cache_read_input_tokens : Nat
  reasoning_tokens : Nat
deriving DecidableEq, Repr

/-- `trae_agent.utils.llm_basics.LLMResponse`. -/
structure LLMResponse where
  content : String
  usage : Option LLMUsage
  model : String
  finish_reason : String
  tool_calls : Option (List ToolCall)
deriving DecidableEq, Repr

/-- `trae_agent.utils.config.ModelParameters` (the fields `chat` reads). -/
structure ModelParameters where
  model : String
  temperature : Int
  top_p : Int
  max_tokens : Nat
  max_retries : Nat
deriving DecidableEq, Repr

/-- A tool as seen by the client: name, description and declared input
schema (the JSON-Schema payload is opaque to this unit). -/
structure Tool where
  name : String
  description : String
  input_schema : String
deriving DecidableEq, Repr

/-- `openai.types.responses.FunctionToolParam` as built in `chat`. -/
structure FunctionToolParam where
  name : String
  description : String
  parameters : String
  strict : Bool
  type : String
deriving DecidableEq, Repr

/-- An inner content block of a "message" output block of the provider
response (`output_text` carries text; anything else is ignored by the
decomposition loop). -/
inductive ContentBlock where
  | output_text (text : String)
  | otherContent
deriving DecidableEq, Repr

/-- One block of `response.output`: a function call (with its raw JSON
arguments string), a message, or any other block type (ignored). -/
inductive OutputBlock where
  | function_call (call_id : String) (name : String) (arguments : String)
      (id : Option String)
  | message (content : List ContentBlock)
  | otherBlock
deriving DecidableEq, Repr

/-- Provider usage section (`response.usage` with its nested details). -/
structure ProviderUsage where
  input_tokens : Nat
  output_tokens : Nat
  cached_tokens : Nat
  reasoning_tokens : Nat
deriving DecidableEq, Repr

/-- The provider response consumed by `chat`. -/
structure ProviderResponse where
  output : List OutputBlock
  usage : Option ProviderUsage
  model : String
  status : String
deriving DecidableEq, Repr

/-- One element of the wire-format input list (`ResponseInputParam`): a
role-tagged text dict, a `function_call` item, a `function_call_output`
item, or a provider output block appended verbatim to the history. -/
inductive WireItem where
  | roleText (role : String) (content : String)
  | functionCall (call_id : String) (name : String) (arguments : String)
  | functionCallOutput (call_id : String) (output : String)
  | fromOutput (block : OutputBlock)
deriving DecidableEq, Repr

/-- The adapter's mutable state: `self.message_history`. -/
structure OpenAIClientState where
  message_history : List WireItem
deriving DecidableEq, Repr

/-- Python substring test `needle in hay` on lists of characters. -/
def charsContain : List Char → List Char → Bool
  | [], ns => ns.isEmpty
  | h :: t, ns => ns.isPrefixOf (h :: t) || charsContain t ns

/-- Python substring test `needle in hay` on strings. -/
def strContains (hay needle : String) : Bool :=
  charsContain hay.toList needle.toList

/-- Characters stripped by Python `str.strip()` (ASCII whitespace:
space, tab, newline, carriage return, vertical tab, form feed). -/
def isPySpace (c : Char) : Bool :=
  c = ' ' || c = '\t' || c = '\n' || c = '\r' ||
  c = Char.ofNat 11 || c = Char.ofNat 12

/-- Python `str.strip()`: remove leading and trailing whitespace. -/
def pyStrip (s : String) : String :=
  String.mk (((s.toList.dropWhile isPySpace).reverse.dropWhile isPySpace).reverse)

/-- Model of `json.dumps` on a string-keyed, string-valued mapping
(exact formatting is irrelevant to every claim; it only needs to be a
fixed total function). -/
def jsonDumps (args : JsonObject) : String :=
  "\x7b" ++
    String.intercalate ", "
      (args.map fun kv => "\"" ++ kv.1 ++ "\": \"" ++ kv.2 ++ "\"") ++
  "\x7d"

/-- `OpenAIClient.parse_tool_call`: serialize a ToolCall back to a wire
`function_call` item. -/
def parse_tool_call (tc : ToolCall) : WireItem :=
  WireItem.functionCall tc.call_id tc.name (jsonDumps tc.arguments)

/-- `OpenAIClient.parse_tool_call_result`: concatenate the optional result
payload and (when the error string is truthy) `"\nError: " ++ error`, strip
surrounding whitespace, and wrap in a `function_call_output` item. -/
def parse_tool_call_result (tr : ToolResult) : WireItem :=
  let rc0 : String :=
    match tr.result with
    | some r => r
    | none => ""
  let rc1 : String :=
    match tr.error with
    | some e => if e = "" then rc0 else rc0 ++ "\nError: " ++ e
    | none => rc0
  WireItem.functionCallOutput tr.call_id (pyStrip rc1)

/-- `OpenAIClient.parse_messages`: translate messages to wire format in
order; the first invalid message aborts the whole translation with an
error (a Python `ValueError`). -/
def parse_messages : List LLMMessage → Except String (List WireItem)
  | [] => Except.ok []
  | msg :: rest =>
    match msg.tool_result with
    | some tr =>
      (parse_messages rest).map fun ws => parse_tool_call_result tr :: ws
    | none =>
      match msg.tool_call with
      | some tc =>
        (parse_messages rest).map fun ws => parse_tool_call tc :: ws
      | none =>
        match msg.content with
        | none => Except.error "Message content is required"
        | some c =>
          if c = "" then Except.error "Message content is required"
          else if msg.role = "system" then
            (parse_messages rest).map fun ws =>
              WireItem.roleText "system" c :: ws
          else if msg.role = "user" then
            (parse_messages rest).map fun ws =>
              WireItem.roleText "user" c :: ws
          else if msg.role = "assistant" then
            (parse_messages rest).map fun ws =>
              WireItem.roleText "assistant" c :: ws
          else Except.error ("Invalid message role: " ++ msg.role)

/-- `OpenAIClient.set_chat_history`. -/
def set_chat_history (messages : List LLMMessage) :
    Except String OpenAIClientState :=
  (parse_messages messages).map fun ws => ⟨ws⟩

/-- The static allow-list in `OpenAIClient.supports_tool_calling`. -/
def tool_capable_models : List String :=
  ["gpt-4-turbo", "gpt-4o", "gpt-4o-mini", "gpt-4.1", "gpt-4.5",
   "o1", "o3", "o3-mini", "o4-mini"]

/-- `OpenAIClient.supports_tool_calling`. -/
def supports_tool_calling (mp : ModelParameters) : Bool :=
  if strContains mp.model "o1-mini" then false
  else tool_capable_models.any fun m => strContains mp.model m

/-- The tool-schema list built in `chat` from the `tools` argument
(`None` when the caller passes no tools or an empty/falsy list). -/
def buildToolSchemas (tools : Option (List Tool)) :
    Option (List FunctionToolParam) :=
  match tools with
  | none => none
  | some ts =>
    if ts.isEmpty then none
    else some (ts.map fun t => ⟨t.name, t.description, t.input_schema,
      true, "function"⟩)

/-- The keyword arguments of one `client.responses.create` call; `none`
in an optional field means the argument is sent as `openai.NOT_GIVEN`. -/
structure Request where
  input : List WireItem
  model : String
  tools : Option (List FunctionToolParam)
  temperature : Option Int
  top_p : Int
  max_output_tokens : Nat
deriving DecidableEq, Repr

/-- The request `chat` sends on every attempt: tools fall back to
`NOT_GIVEN` when falsy, and temperature is `NOT_GIVEN` whenever the model
name contains `"o3"` or `"o4-mini"`. -/
def buildRequest (input : List WireItem) (mp : ModelParameters)
    (tool_schemas : Option (List FunctionToolParam)) : Request where
  input := input
  model := mp.model
  tools :=
    match tool_schemas with
    | some s => if s.isEmpty then none else some s
    | none => none
  temperature :=
    if strContains mp.model "o3" || strContains mp.model "o4-mini" then none
    else some mp.temperature
  top_p := mp.top_p
  max_output_tokens := mp.max_tokens

/-- The retry loop of `chat`: `remaining` attempts are left, `i` is the
0-based index of the next attempt, `sleeps` counts backoff sleeps so far
and `log` is the accumulated `error_message`.  Every failed attempt
appends `"Error (i+1): e\n"` and sleeps once; a success stops
immediately. -/
def runAttempts (attempt : Nat → Except String ProviderResponse) :
    Nat → Nat → Nat → String → Option ProviderResponse × Nat × String
  | 0, _, sleeps, log => (none, sleeps, log)
  | Nat.succ remaining, i, sleeps, log =>
    match attempt i with
    | Except.ok r => (some r, sleeps, log)
    | Except.error e =>
      runAttempts attempt remaining (i + 1) (sleeps + 1)
        (log ++ ("Error " ++ toString (i + 1) ++ ": " ++ e ++ "\n"))

/-- Concatenation of the numbered diagnostic lines for attempts
`start+1 .. start+n` in order (the expected shape of the accumulated
`error_message`). -/
def retryLog (errs : Nat → String) : Nat → Nat → String
  | _, 0 => ""
  | start, Nat.succ m =>
    ("Error " ++ toString (start + 1) ++ ": " ++ errs start ++ "\n") ++
      retryLog errs (start + 1) m

/-- Text of one "message" output block: the in-order concatenation of its
`output_text` inner blocks, no separator. -/
def messageText (blocks : List ContentBlock) : String :=
  String.join (blocks.filterMap fun cb =>
    match cb with
    | ContentBlock.output_text t => some t
    | ContentBlock.otherContent => none)

/-- The decomposition loop over `response.output` in `chat`: `content` and
`tool_calls` are the loop accumulators.  A `function_call` block decodes
its arguments string (empty string → empty mapping; a decode failure
raises), a `message` block REASSIGNS `content` to its own text, any other
block is skipped. -/
def decomposeOutput (jsonLoads : String → Option JsonObject) :
    List OutputBlock → String → List ToolCall →
    Except String (String × List ToolCall)
  | [], content, tool_calls => Except.ok (content, tool_calls)
  | b :: rest, content, tool_calls =>
    match b with
    | OutputBlock.function_call cid nm args oid =>
      match (if args = "" then some [] else jsonLoads args) with
      | some decoded =>
        decomposeOutput jsonLoads rest content
          (tool_calls ++ [⟨cid, nm, decoded, oid⟩])
      | none =>
        Except.error ("Invalid JSON in tool call arguments: " ++ args)
    | OutputBlock.message blocks =>
      decomposeOutput jsonLoads rest (messageText blocks) tool_calls
    | OutputBlock.otherBlock =>
      decomposeOutput jsonLoads rest content tool_calls

/-- Building the `LLMResponse` from a provider response (the tail of
`chat` after the history assignment): usage copied when present,
`finish_reason` copied verbatim from `response.status`, and `tool_calls`
set to the list when non-empty and to `None` otherwise. -/
def reconcile (jsonLoads : String → Option JsonObject)
    (response : ProviderResponse) : Except String LLMResponse :=
  match decomposeOutput jsonLoads response.output "" [] with
  | Except.error e => Except.error e
  | Except.ok (content, tool_calls) =>
    Except.ok
      { content := content
        usage := response.usage.map fun u =>
          ⟨u.input_tokens, u.output_tokens, u.cached_tokens,
            u.reasoning_tokens⟩
        model := response.model
        finish_reason := response.status
        tool_calls := if tool_calls.length > 0 then some tool_calls
          else none }

/-- `OpenAIClient.chat`.  The network is the explicit function `network`:
given the request and the 0-based attempt index it yields that attempt's
outcome.  The returned state is the value of `self.message_history` when
the call returns or raises: note that the history assignment happens
BEFORE the decomposition of the output, so a JSON decode failure leaves
the history already overwritten. -/
def chat (jsonLoads : String → Option JsonObject)
    (network : Request → Nat → Except String ProviderResponse)
    (st : OpenAIClientState) (messages : List LLMMessage)
    (mp : ModelParameters) (tools : Option (List Tool))
    (reuse_history : Bool) :
    OpenAIClientState × Except String LLMResponse :=
  match parse_messages messages with
  | Except.error e => (st, Except.error e)
  | Except.ok openai_messages =>
    let tool_schemas := buildToolSchemas tools
    let api_call_input :=
      (if reuse_history then st.message_history else []) ++ openai_messages
    let req := buildRequest api_call_input mp tool_schemas
    match runAttempts (network req) mp.max_retries 0 0 "" with
    | (none, _, error_message) =>
      (st, Except.error
        ("Failed to get response from OpenAI after max retries: " ++
          error_message))
    | (some response, _, _) =>
      let st' : OpenAIClientState :=
        ⟨api_call_input ++ response.output.map WireItem.fromOutput⟩
      match reconcile jsonLoads response with
      | Except.error e => (st', Except.error e)
      | Except.ok llm_response => (st', Except.ok llm_response)

/-- Text of the LAST "message"-typed block of an output sequence, when one
exists (the block whose text actually survives the reassigning
decomposition loop). -/
def lastMessageBlockText : List OutputBlock → Option String
  | [] => none
  | b :: rest =>
    match lastMessageBlockText rest with
    | some t => some t
    | none =>
      match b with
      | OutputBlock.message blocks => some (messageText blocks)
      | _ => none

/-- Number of `function_call` blocks in an output sequence. -/
def countFunctionCalls (os : List OutputBlock) : Nat :=
  os.countP fun b =>
    match b with
    | OutputBlock.function_call _ _ _ _ => true
    | _ => false

lemma decomposeOutput_content (j : String → Option JsonObject) :
    ∀ (os : List OutputBlock) (c0 : String) (acc : List ToolCall)
      (c : String) (tcs : List ToolCall),
      decomposeOutput j os c0 acc = Except.ok (c, tcs) →
      c = (lastMessageBlockText os).getD c0 := by
  intro os
  induction os with
  | nil =>
    intro c0 acc c tcs h
    simp only [decomposeOutput, Except.ok.injEq, Prod.mk.injEq] at h
    simp [lastMessageBlockText, h.1.symm]
  | cons b rest ih =>
    intro c0 acc c tcs h
    cases b with
    | function_call cid nm args oid =>
      simp only [decomposeOutput] at h
      cases hdec : (if args = "" then some [] else j args) with
      | none => rw [hdec] at h; exact absurd h (by simp)
      | some decoded =>
        rw [hdec] at h
        have := ih c0 (acc ++ [⟨cid, nm, decoded, oid⟩]) c tcs h
        rw [this]
        simp only [lastMessageBlockText]
        cases lastMessageBlockText rest <;> simp
    | message blocks =>
      simp only [decomposeOutput] at h
      have := ih (messageText blocks) acc c tcs h
      rw [this]
      simp only [lastMessageBlockText]
      cases lastMessageBlockText rest <;> simp
    | otherBlock =>
      simp only [decomposeOutput] at h
      have := ih c0 acc c tcs h
      rw [this]
      simp only [lastMessageBlockText]
      cases lastMessageBlockText rest <;> simp

lemma decomposeOutput_length (j : String → Option JsonObject) :
    ∀ (os : List OutputBlock) (c0 : String) (acc : List ToolCall)
      (c : String) (tcs : List ToolCall),
      decomposeOutput j os c0 acc = Except.ok (c, tcs) →
      tcs.length = acc.length + countFunctionCalls os := by
  intro os
  induction os with
  | nil =>
    intro c0 acc c tcs h
    simp only [decomposeOutput, Except.ok.injEq, Prod.mk.injEq] at h
    simp [countFunctionCalls, h.2.symm]
  | cons b rest ih =>
    intro c0 acc c tcs h
    cases b with
    | function_call cid nm args oid =>
      simp only [decomposeOutput] at h
      cases hdec : (if args = "" then some [] else j args) with
      | none => rw [hdec] at h; exact absurd h (by simp)
      | some decoded =>
        rw [hdec] at h
        have := ih c0 (acc ++ [⟨cid, nm, decoded, oid⟩]) c tcs h
        simp only [List.length_append, List.length_cons, List.length_nil]
          at this
        rw [this]
        simp [countFunctionCalls, List.countP_cons]
        omega
    | message blocks =>
      simp only [decomposeOutput] at h
      have := ih (messageText blocks) acc c tcs h
      rw [this]
      simp [countFunctionCalls, List.countP_cons]
    | otherBlock =>
      simp only [decomposeOutput] at h
      have := ih c0 acc c tcs h
      rw [this]
      simp [countFunctionCalls, List.countP_cons]

lemma runAttempts_all_fail (attempt : Nat → Except String ProviderResponse)
    (errs : Nat → String) :
    ∀ (n i sleeps : Nat) (log : String),
      (∀ k, k < n → attempt (i + k) = Except.error (errs (i + k))) →
      runAttempts attempt n i sleeps log =
        (none, sleeps + n, log ++ retryLog errs i n) := by
  intro n
  induction n with
  | zero =>
    intro i sleeps log _
    simp [runAttempts, retryLog, String.append_empty]
  | succ m ih =>
    intro i sleeps log hfail
    have h0 : attempt i = Except.error (errs i) := by
      have := hfail 0 (by omega)
      simpa using this
    have hrest : ∀ k, k < m →
        attempt (i + 1 + k) = Except.error (errs (i + 1 + k)) := by
      intro k hk
      have := hfail (k + 1) (by omega)
      have he : i + (k + 1) = i + 1 + k := by omega
      rwa [he] at this
    simp only [runAttempts, h0]
    rw [ih (i + 1) (sleeps + 1) _ hrest]
    simp only [retryLog, Prod.mk.injEq, true_and]
    exact ⟨by omega, String.append_assoc _ _ _⟩

lemma runAttempts_success (attempt : Nat → Except String ProviderResponse)
    (errs : Nat → String) (resp : ProviderResponse) :
    ∀ (k n i sleeps : Nat) (log : String), k < n →
      (∀ m, m < k → attempt (i + m) = Except.error (errs (i + m))) →
      attempt (i + k) = Except.ok resp →
      runAttempts attempt n i sleeps log =
        (some resp, sleeps + k, log ++ retryLog errs i k) := by
  intro k
  induction k with
  | zero =>
    intro n i sleeps log hk _ hok
    cases n with
    | zero => omega
    | succ m =>
      simp only [Nat.add_zero] at hok
      simp [runAttempts, hok, retryLog, String.append_empty]
  | succ j ih =>
    intro n i sleeps log hk hfail hok
    cases n with
    | zero => omega
    | succ m =>
      have h0 : attempt i = Except.error (errs i) := by
        have := hfail 0 (by omega)
        simpa using this
      have hfail' : ∀ q, q < j →
          attempt (i + 1 + q) = Except.error (errs (i + 1 + q)) := by
        intro q hq
        have := hfail (q + 1) (by omega)
        have he : i + (q + 1) = i + 1 + q := by omega
        rwa [he] at this
      have hok' : attempt (i + 1 + j) = Except.ok resp := by
        have he : i + (j + 1) = i + 1 + j := by omega
        rwa [he] at hok
      simp only [runAttempts, h0]
      rw [ih m (i + 1) (sleeps + 1) _ (by omega) hfail' hok']
      simp only [retryLog, Prod.mk.injEq, true_and]
      exact ⟨by omega, String.append_assoc _ _ _⟩

lemma runAttempts_none_iff (attempt : Nat → Except String ProviderResponse) :
    ∀ (n i sleeps : Nat) (log : String),
      (runAttempts attempt n i sleeps log).1 = none ↔
        ∀ k, k < n → ∃ e, attempt (i + k) = Except.error e := by
  intro n
  induction n with
  | zero =>
    intro i sleeps log
    simp [runAttempts]
  | succ m ih =>
    intro i sleeps log
    cases h0 : attempt i with
    | ok r =>
      simp only [runAttempts, h0]
      constructor
      · intro hc
        exact absurd hc (by simp)
      · intro hall
        obtain ⟨e, he⟩ := hall 0 (by omega)
        rw [Nat.add_zero] at he
        rw [h0] at he
        exact absurd he (by simp)
    | error e =>
      simp only [runAttempts, h0]
      rw [ih (i + 1)]
      constructor
      · intro hall k hk
        cases k with
        | zero => exact ⟨e, by simpa using h0⟩
        | succ q =>
          have he : i + (q + 1) = i + 1 + q := by omega
          rw [he]
          exact hall q (by omega)
      · intro hall q hq
        have he : i + 1 + q = i + (q + 1) := by omega
        rw [he]
        exact hall (q + 1) (by omega)

lemma runAttempts_first_ok (attempt : Nat → Except String ProviderResponse)
    (resp : ProviderResponse) (n : Nat) (h0 : attempt 0 = Except.ok resp)
    (hn : 0 < n) :
    runAttempts attempt n 0 0 "" = (some resp, 0, "") := by
  cases n with
  | zero => omega
  | succ m => simp [runAttempts, h0]

lemma chat_parse_error (j : String → Option JsonObject)
    (network : Request → Nat → Except String ProviderResponse)
    (st : OpenAIClientState) (messages : List LLMMessage)
    (mp : ModelParameters) (tools : Option (List Tool)) (ru : Bool)
    (e : String) (hp : parse_messages messages = Except.error e) :
    chat j network st messages mp tools ru = (st, Except.error e) := by
  unfold chat
  rw [hp]

lemma chat_retries_exhausted (j : String → Option JsonObject)
    (network : Request → Nat → Except String ProviderResponse)
    (st : OpenAIClientState) (messages : List LLMMessage)
    (oms : List WireItem) (mp : ModelParameters)
    (tools : Option (List Tool)) (ru : Bool) (s : Nat) (log : String)
    (hp : parse_messages messages = Except.ok oms)
    (hra : runAttempts
        (network (buildRequest
          ((if ru then st.message_history else []) ++ oms) mp
          (buildToolSchemas tools))) mp.max_retries 0 0 "" =
      (none, s, log)) :
    chat j network st messages mp tools ru =
      (st, Except.error
        ("Failed to get response from OpenAI after max retries: " ++ log)) := by
  unfold chat
  rw [hp]
  dsimp only
  rw [hra]

lemma chat_net_ok (j : String → Option JsonObject)
    (network : Request → Nat → Except String ProviderResponse)
    (st : OpenAIClientState) (messages : List LLMMessage)
    (oms : List WireItem) (mp : ModelParameters)
    (tools : Option (List Tool)) (ru : Bool) (resp : ProviderResponse)
    (k : Nat) (log : String)
    (hp : parse_messages messages = Except.ok oms)
    (hra : runAttempts
        (network (buildRequest
          ((if ru then st.message_history else []) ++ oms) mp
          (buildToolSchemas tools))) mp.max_retries 0 0 "" =
      (some resp, k, log)) :
    chat j network st messages mp tools ru =
      (⟨((if ru then st.message_history else []) ++ oms) ++
          resp.output.map WireItem.fromOutput⟩,
        reconcile j resp) := by
  unfold chat
  rw [hp]
  dsimp only
  rw [hra]
  cases hrec : reconcile j resp <;> simp [hrec]

/-- Claim C5: translating a ToolResult yields a `function_call_output`
wire item whose text is the success payload followed, when a (truthy)
error string is present, by the literal separator `"\nError: "` and the
error, the whole then stripped of surrounding whitespace; in particular
`result="42"` with `error="timeout"` yields exactly
`"42\nError: timeout"`. -/
theorem claim_C5_theorem :
    (∀ tr : ToolResult,
      parse_tool_call_result tr = WireItem.functionCallOutput tr.call_id
        (pyStrip
          ((match tr.result with | some r => r | none => "") ++
            (match tr.error with
             | some e => if e = "" then "" else "\nError: " ++ e
             | none => "")))) ∧
    parse_tool_call_result ⟨"call-7", some "42", some "timeout"⟩ =
      WireItem.functionCallOutput "call-7" "42\nError: timeout" := by
  constructor
  · intro tr
    obtain ⟨cid, res, err⟩ := tr
    cases res with
    | none =>
      cases err with
      | none => simp [parse_tool_call_result, String.append_empty]
      | some e =>
        by_cases he : e = "" <;>
          simp [parse_tool_call_result, he, String.empty_append,
            String.append_empty, String.append_assoc]
    | some r =>
      cases err with
      | none => simp [parse_tool_call_result, String.append_empty]
      | some e =>
        by_cases he : e = "" <;>
          simp [parse_tool_call_result, he, String.empty_append,
            String.append_empty, String.append_assoc]
  · decide

/-- Claim C10: `parse_tool_call_result` is total: every ToolResult maps to
a `function_call_output` wire item, and when both the payload and the
error are absent the output text is the empty string. -/
theorem claim_C10_theorem :
    (∀ tr : ToolResult, ∃ out : String,
      parse_tool_call_result tr =
        WireItem.functionCallOutput tr.call_id out) ∧
    (∀ tr : ToolResult, tr.result = none → tr.error = none →
      parse_tool_call_result tr =
        WireItem.functionCallOutput tr.call_id "") := by
  constructor
  · intro tr
    exact ⟨_, rfl⟩
  · intro tr h1 h2
    obtain ⟨cid, res, err⟩ := tr
    simp only at h1 h2
    subst h1
    subst h2
    rfl

/-- Claim C10 witness: both fields absent gives the empty output text. -/
theorem claim_C10_witness :
    parse_tool_call_result ⟨"call-9", none, none⟩ =
      WireItem.functionCallOutput "call-9" "" :=
  claim_C10_theorem.2 ⟨"call-9", none, none⟩ rfl rfl

/-- Claim C7: the request omits temperature (sends `NOT_GIVEN`) exactly
when the model name contains `"o3"` or `"o4-mini"`; otherwise the
configured temperature is sent. -/
theorem claim_C7_theorem (input : List WireItem) (mp : ModelParameters)
    (ts : Option (List FunctionToolParam)) :
    ((buildRequest input mp ts).temperature = none ↔
      (strContains mp.model "o3" = true ∨
        strContains mp.model "o4-mini" = true)) ∧
    (strContains mp.model "o3" = false →
      strContains mp.model "o4-mini" = false →
      (buildRequest input mp ts).temperature = some mp.temperature) := by
  constructor
  · by_cases h3 : strContains mp.model "o3" <;>
      by_cases h4 : strContains mp.model "o4-mini" <;>
        simp [buildRequest, h3, h4]
  · intro h3 h4
    simp [buildRequest, h3, h4]

/-- Claim C7 witness: `gpt-4o` keeps the configured temperature, `o3-mini`
has it omitted. -/
theorem claim_C7_witness :
    (buildRequest [] ⟨"gpt-4o", 7, 1, 10, 1⟩ none).temperature = some 7 ∧
    (buildRequest [] ⟨"o3-mini", 7, 1, 10, 1⟩ none).temperature = none :=
  ⟨(claim_C7_theorem [] ⟨"gpt-4o", 7, 1, 10, 1⟩ none).2 (by decide)
      (by decide),
   (claim_C7_theorem [] ⟨"o3-mini", 7, 1, 10, 1⟩ none).1.mpr
      (Or.inl (by decide))⟩

/-- Claim C8: `supports_tool_calling` is false for every model name
containing `"o1-mini"`, and otherwise true exactly when the name contains
one of the fixed allow-list substrings. -/
theorem claim_C8_theorem (mp : ModelParameters) :
    (strContains mp.model "o1-mini" = true →
      supports_tool_calling mp = false) ∧
    (strContains mp.model "o1-mini" = false →
      (supports_tool_calling mp = true ↔
        ∃ s, s ∈ tool_capable_models ∧ strContains mp.model s = true)) := by
  constructor
  · intro h
    simp [supports_tool_calling, h]
  · intro h
    simp [supports_tool_calling, h, List.any_eq_true]

/-- Claim C8 witness: false for `"o1-mini-2024-09-12"`, true for
`"gpt-4o-2024-08-06"`. -/
theorem claim_C8_witness :
    supports_tool_calling ⟨"o1-mini-2024-09-12", 0, 0, 0, 1⟩ = false ∧
    supports_tool_calling ⟨"gpt-4o-2024-08-06", 0, 0, 0, 1⟩ = true :=
  ⟨( claim_C8_theorem ⟨"o1-mini-2024-09-12", 0, 0, 0, 1⟩).1 (by decide),
   (( claim_C8_theorem ⟨"gpt-4o-2024-08-06", 0, 0, 0, 1⟩).2 (by decide)).mpr
      ⟨"gpt-4o", by decide, by decide⟩⟩

/-- Claim C6: a message carrying neither a tool call nor a tool result
fails translation when its content is empty/absent or its role is not
system/user/assistant, and otherwise emits a role-tagged text item. -/
theorem claim_C6_theorem (msg : LLMMessage) (rest : List LLMMessage)
    (h1 : msg.tool_call = none) (h2 : msg.tool_result = none) :
    ((msg.content = none ∨ msg.content = some "") →
      parse_messages (msg :: rest) =
        Except.error "Message content is required") ∧
    (∀ c, msg.content = some c → c ≠ "" →
      msg.role ≠ "system" → msg.role ≠ "user" → msg.role ≠ "assistant" →
      parse_messages (msg :: rest) =
        Except.error ("Invalid message role: " ++ msg.role)) ∧
    (∀ c, msg.content = some c → c ≠ "" →
      (msg.role = "system" ∨ msg.role = "user" ∨ msg.role = "assistant") →
      parse_messages (msg :: rest) =
        (parse_messages rest).map fun ws =>
          WireItem.roleText msg.role c :: ws) := by
  refine ⟨?_, ?_, ?_⟩
  · intro hc
    rcases hc with hc | hc <;>
      simp [parse_messages, h1, h2, hc]
  · intro c hc hcne hs hu ha
    simp [parse_messages, h1, h2, hc, hcne, hs, hu, ha]
  · intro c hc hcne hrole
    rcases hrole with h | h | h <;>
      simp [parse_messages, h1, h2, hc, hcne, h]

/-- Claim C6 witness: an unknown role is rejected with the invalid-role
error. -/
theorem claim_C6_witness :
    parse_messages [⟨"moderator", some "x", none, none⟩] =
      Except.error "Invalid message role: moderator" :=
  ( claim_C6_theorem ⟨"moderator", some "x", none, none⟩ [] rfl rfl).2.1 "x"
    rfl (by decide) (by decide) (by decide) (by decide)

/-- Claim C1 counterexample: a response whose output has TWO
"message"-typed blocks ("A" then "B") yields content `"B"` — the last
block's text — not the concatenation `"AB"` across all message blocks
that the claim predicts. -/
theorem claim_C1_counterexample :
    (chat (fun _ => some [])
        (fun _ _ => Except.ok
          ⟨[OutputBlock.message [ContentBlock.output_text "A"],
            OutputBlock.message [ContentBlock.output_text "B"]],
            none, "m", "completed"⟩)
        ⟨[]⟩ [⟨"user", some "hi", none, none⟩]
        ⟨"gpt-4o", 1, 1, 10, 1⟩ none true).2 =
      Except.ok ⟨"B", none, "m", "completed", none⟩ ∧
    ("B" : String) ≠ "AB" :=
  ⟨rfl, by decide⟩

/-- Claim C1 (amended): the content of the returned LLMResponse equals
the in-order, no-separator concatenation of the `output_text` texts of
the LAST "message"-typed block of the output (empty when no message
block exists) — the loop reassigns `content` on every message block. -/
theorem claim_C1_theorem (j : String → Option JsonObject)
    (resp : ProviderResponse) (r : LLMResponse)
    (h : reconcile j resp = Except.ok r) :
    r.content = (lastMessageBlockText resp.output).getD "" := by
  unfold reconcile at h
  cases hdec : decomposeOutput j resp.output "" [] with
  | error e =>
    rw [hdec] at h
    simp at h
  | ok p =>
    obtain ⟨c, tcs⟩ := p
    rw [hdec] at h
    simp only [Except.ok.injEq] at h
    rw [← h]
    exact decomposeOutput_content j resp.output "" [] c tcs hdec

/-- Claim C1 witness: a concrete response decomposed by the amended
rule. -/
theorem claim_C1_witness :
    (⟨"B", none, "m", "completed", none⟩ : LLMResponse).content =
      (lastMessageBlockText
        [OutputBlock.message [ContentBlock.output_text "A"],
          OutputBlock.message [ContentBlock.output_text "B"]]).getD "" :=
  claim_C1_theorem (fun _ => some [])
    ⟨[OutputBlock.message [ContentBlock.output_text "A"],
      OutputBlock.message [ContentBlock.output_text "B"]],
      none, "m", "completed"⟩
    ⟨"B", none, "m", "completed", none⟩ rfl

/-- Claim C4: the returned LLMResponse's `tool_calls` is `None` exactly
when the output has no `function_call` block, and otherwise a non-empty
list with one entry per `function_call` block; never an empty list. -/
theorem claim_C4_theorem (j : String → Option JsonObject)
    (network : Request → Nat → Except String ProviderResponse)
    (st st' : OpenAIClientState) (messages : List LLMMessage)
    (mp : ModelParameters) (tools : Option (List Tool)) (ru : Bool)
    (resp : ProviderResponse) (r : LLMResponse)
    (hnet : ∀ q i, network q i = Except.ok resp)
    (hn : 0 < mp.max_retries)
    (hok : chat j network st messages mp tools ru = (st', Except.ok r)) :
    (r.tool_calls = none ↔ countFunctionCalls resp.output = 0) ∧
    (∀ l, r.tool_calls = some l →
      l ≠ [] ∧ l.length = countFunctionCalls resp.output) := by
  cases hp : parse_messages messages with
  | error e =>
    rw [chat_parse_error j network st messages mp tools ru e hp] at hok
    simp at hok
  | ok oms =>
    rw [chat_net_ok j network st messages oms mp tools ru resp 0 ""
      hp (runAttempts_first_ok _ resp mp.max_retries (hnet _ 0) hn)] at hok
    unfold reconcile at hok
    cases hdec : decomposeOutput j resp.output "" [] with
    | error e =>
      rw [hdec] at hok
      simp at hok
    | ok p =>
      obtain ⟨c, tcs⟩ := p
      rw [hdec] at hok
      simp only [Prod.mk.injEq, Except.ok.injEq] at hok
      have hlen := decomposeOutput_length j resp.output "" [] c tcs hdec
      simp only [List.length_nil, Nat.zero_add] at hlen
      rw [← hok.2]
      constructor
      · by_cases hz : tcs.length > 0 <;> simp [hz] <;> omega
      · intro l hl
        by_cases hz : tcs.length > 0
        · simp only [hz, if_pos] at hl
          simp only [Option.some.injEq] at hl
          subst hl
          constructor
          · intro hnil
            rw [hnil] at hz
            simp at hz
          · omega
        · simp [hz] at hl

/-- Claim C4 witness: one `function_call` block with empty arguments
yields a singleton `tool_calls` list of matching length. -/
theorem claim_C4_witness :
    ([(⟨"c1", "f", [], none⟩ : ToolCall)] ≠ []) ∧
    ([(⟨"c1", "f", [], none⟩ : ToolCall)]).length =
      countFunctionCalls
        [OutputBlock.function_call "c1" "f" "" none] :=
  (claim_C4_theorem (fun _ => some [])
    (fun _ _ => Except.ok
      ⟨[OutputBlock.function_call "c1" "f" "" none], none, "m", "done"⟩)
    ⟨[]⟩ ⟨[WireItem.roleText "user" "hi",
        WireItem.fromOutput (OutputBlock.function_call "c1" "f" "" none)]⟩
    [⟨"user", some "hi", none, none⟩]
    ⟨"gpt-4o", 1, 1, 10, 1⟩ none true
    ⟨[OutputBlock.function_call "c1" "f" "" none], none, "m", "done"⟩
    ⟨"", none, "m", "done", some [⟨"c1", "f", [], none⟩]⟩
    (fun _ _ => rfl) (by decide) rfl).2
    [⟨"c1", "f", [], none⟩] rfl

/-- Claim C2: after a successful chat call the stored history equals
exactly the wire input sent on that call concatenated with the provider's
output blocks, regardless of `reuse_history`; and with
`reuse_history = false` the wire input sent is exactly the translation of
the newly supplied messages, with no prior history prefixed. -/
theorem claim_C2_theorem (j : String → Option JsonObject)
    (network : Request → Nat → Except String ProviderResponse)
    (st st' : OpenAIClientState) (messages : List LLMMessage)
    (oms : List WireItem) (mp : ModelParameters)
    (tools : Option (List Tool)) (ru : Bool)
    (resp : ProviderResponse) (r : LLMResponse)
    (hp : parse_messages messages = Except.ok oms)
    (hnet : ∀ q i, network q i = Except.ok resp)
    (hn : 0 < mp.max_retries)
    (hok : chat j network st messages mp tools ru = (st', Except.ok r)) :
    st'.message_history =
      (buildRequest ((if ru then st.message_history else []) ++ oms) mp
          (buildToolSchemas tools)).input ++
        resp.output.map WireItem.fromOutput ∧
    (ru = false →
      (buildRequest ((if ru then st.message_history else []) ++ oms) mp
          (buildToolSchemas tools)).input = oms) := by
  rw [chat_net_ok j network st messages oms mp tools ru resp 0 "" hp
    (runAttempts_first_ok _ resp mp.max_retries (hnet _ 0) hn)] at hok
  have h1 : st' = ⟨((if ru then st.message_history else []) ++ oms) ++
      resp.output.map WireItem.fromOutput⟩ :=
    (congrArg Prod.fst hok).symm
  constructor
  · rw [h1]
    simp [buildRequest]
  · intro hru
    rw [hru]
    simp [buildRequest]

/-- Claim C2 witness: with `reuse_history = false` the post-call history
is the translated new messages followed by the provider output. -/
theorem claim_C2_witness :
    ([WireItem.roleText "user" "hi",
      WireItem.fromOutput (OutputBlock.message [ContentBlock.output_text "ok"])] :
        List WireItem) =
      (buildRequest [WireItem.roleText "user" "hi"]
          ⟨"gpt-4o", 1, 1, 10, 1⟩ none).input ++
        [WireItem.fromOutput (OutputBlock.message [ContentBlock.output_text "ok"])] ∧
    (false = false →
      (buildRequest [WireItem.roleText "user" "hi"]
          ⟨"gpt-4o", 1, 1, 10, 1⟩ none).input = [WireItem.roleText "user" "hi"]) :=
  claim_C2_theorem (fun _ => some [])
    (fun _ _ => Except.ok
      ⟨[OutputBlock.message [ContentBlock.output_text "ok"]], none, "m", "done"⟩)
    ⟨[WireItem.roleText "system" "s0"]⟩
    ⟨[WireItem.roleText "user" "hi",
      WireItem.fromOutput (OutputBlock.message [ContentBlock.output_text "ok"])]⟩
    [⟨"user", some "hi", none, none⟩]
    [WireItem.roleText "user" "hi"]
    ⟨"gpt-4o", 1, 1, 10, 1⟩ none false
    ⟨[OutputBlock.message [ContentBlock.output_text "ok"]], none, "m", "done"⟩
    ⟨"ok", none, "m", "done", none⟩
    rfl (fun _ _ => rfl) (by decide) rfl

/-- Claim C3: chat raises the terminal retry error when all `max_retries`
attempts fail, with a message carrying every numbered per-attempt
diagnostic line in order; the executor yields no response exactly when
every attempt fails; and when attempt k+1 is the first success the
executor stops with that response after exactly k backoff sleeps, and
chat returns a successful response (given the response decomposes). -/
theorem claim_C3_theorem (j : String → Option JsonObject)
    (network : Request → Nat → Except String ProviderResponse)
    (st : OpenAIClientState) (messages : List LLMMessage)
    (oms : List WireItem) (mp : ModelParameters)
    (tools : Option (List Tool)) (ru : Bool) (errs : Nat → String)
    (hp : parse_messages messages = Except.ok oms) :
    ((∀ i, i < mp.max_retries →
        network (buildRequest ((if ru then st.message_history else []) ++ oms)
          mp (buildToolSchemas tools)) i = Except.error (errs i)) →
      chat j network st messages mp tools ru =
        (st, Except.error
          ("Failed to get response from OpenAI after max retries: " ++
            retryLog errs 0 mp.max_retries))) ∧
    ((runAttempts (network (buildRequest
        ((if ru then st.message_history else []) ++ oms) mp
        (buildToolSchemas tools))) mp.max_retries 0 0 "").1 = none ↔
      ∀ k, k < mp.max_retries → ∃ e,
        network (buildRequest ((if ru then st.message_history else []) ++ oms)
          mp (buildToolSchemas tools)) k = Except.error e) ∧
    (∀ k resp, k < mp.max_retries →
      (∀ m, m < k →
        network (buildRequest ((if ru then st.message_history else []) ++ oms)
          mp (buildToolSchemas tools)) m = Except.error (errs m)) →
      network (buildRequest ((if ru then st.message_history else []) ++ oms)
        mp (buildToolSchemas tools)) k = Except.ok resp →
      runAttempts (network (buildRequest
        ((if ru then st.message_history else []) ++ oms) mp
        (buildToolSchemas tools))) mp.max_retries 0 0 "" =
        (some resp, k, retryLog errs 0 k) ∧
      ∀ c tcs, decomposeOutput j resp.output "" [] = Except.ok (c, tcs) →
        ∃ r, (chat j network st messages mp tools ru).2 = Except.ok r) := by
  refine ⟨?_, ?_, ?_⟩
  · intro hfail
    have hra := runAttempts_all_fail
      (network (buildRequest ((if ru then st.message_history else []) ++ oms)
        mp (buildToolSchemas tools))) errs mp.max_retries 0 0 ""
      (fun k hk => by simpa using hfail k hk)
    simp only [Nat.zero_add, String.empty_append] at hra
    exact chat_retries_exhausted j network st messages oms mp tools ru _ _
      hp hra
  · have := runAttempts_none_iff
      (network (buildRequest ((if ru then st.message_history else []) ++ oms)
        mp (buildToolSchemas tools))) mp.max_retries 0 0 ""
    simpa using this
  · intro k resp hk hfail hok
    have hra := runAttempts_success
      (network (buildRequest ((if ru then st.message_history else []) ++ oms)
        mp (buildToolSchemas tools))) errs resp k mp.max_retries 0 0 "" hk
      (fun m hm => by simpa using hfail m hm) (by simpa using hok)
    simp only [Nat.zero_add, String.empty_append] at hra
    refine ⟨hra, ?_⟩
    intro c tcs hdec
    rw [chat_net_ok j network st messages oms mp tools ru resp k _ hp hra]
    unfold reconcile
    rw [hdec]
    exact ⟨_, rfl⟩

/-- Claim C3 witness: with `max_retries = 2` and both attempts failing,
chat raises the terminal error whose message carries both numbered
diagnostic lines in order. -/
theorem claim_C3_witness :
    chat (fun _ => some []) (fun _ _ => Except.error "boom")
      ⟨[]⟩ [⟨"user", some "hi", none, none⟩]
      ⟨"gpt-4o", 1, 1, 10, 2⟩ none true =
      (⟨[]⟩, Except.error
        ("Failed to get response from OpenAI after max retries: " ++
          retryLog (fun _ => "boom") 0 2)) ∧
    retryLog (fun _ => "boom") 0 2 = "Error 1: boom\nError 2: boom\n" :=
  ⟨(claim_C3_theorem (fun _ => some []) (fun _ _ => Except.error "boom")
      ⟨[]⟩ [⟨"user", some "hi", none, none⟩] [WireItem.roleText "user" "hi"]
      ⟨"gpt-4o", 1, 1, 10, 2⟩ none true (fun _ => "boom") rfl).1
      (fun _ _ => rfl),
    by decide⟩

/-- Claim C9 counterexample: a provider response whose `function_call`
block carries malformed arguments JSON makes chat raise, yet the stored
history has already been overwritten (it differs from the pre-call
history), refuting "history is left exactly as it was before the call"
for every raising path. -/
theorem claim_C9_counterexample :
    chat (fun _ => none)
        (fun _ _ => Except.ok
          ⟨[OutputBlock.function_call "c" "f" "notjson" none],
            none, "m", "done"⟩)
        ⟨[WireItem.roleText "system" "seed"]⟩
        [⟨"user", some "hi", none, none⟩]
        ⟨"gpt-4o", 1, 1, 10, 1⟩ none true =
      (⟨[WireItem.roleText "system" "seed", WireItem.roleText "user" "hi",
          WireItem.fromOutput
            (OutputBlock.function_call "c" "f" "notjson" none)]⟩,
        Except.error "Invalid JSON in tool call arguments: notjson") ∧
    ([WireItem.roleText "system" "seed", WireItem.roleText "user" "hi",
      WireItem.fromOutput (OutputBlock.function_call "c" "f" "notjson" none)]
        ≠ [WireItem.roleText "system" "seed"]) :=
  ⟨rfl, by decide⟩

/-- Claim C9 (amended): history is unchanged when chat raises from input
translation (invalid role / empty content) or from retry exhaustion; but
when chat raises on malformed tool-call-arguments JSON in the provider
response, the history has already been overwritten with the sent input
followed by the provider output. -/
theorem claim_C9_theorem (j : String → Option JsonObject)
    (network : Request → Nat → Except String ProviderResponse)
    (st : OpenAIClientState) (messages : List LLMMessage)
    (mp : ModelParameters) (tools : Option (List Tool)) (ru : Bool) :
    (∀ e, parse_messages messages = Except.error e →
      chat j network st messages mp tools ru = (st, Except.error e)) ∧
    (∀ oms s log, parse_messages messages = Except.ok oms →
      runAttempts (network (buildRequest
        ((if ru then st.message_history else []) ++ oms) mp
        (buildToolSchemas tools))) mp.max_retries 0 0 "" = (none, s, log) →
      chat j network st messages mp tools ru =
        (st, Except.error
          ("Failed to get response from OpenAI after max retries: " ++
            log))) ∧
    (∀ oms resp k log e, parse_messages messages = Except.ok oms →
      runAttempts (network (buildRequest
        ((if ru then st.message_history else []) ++ oms) mp
        (buildToolSchemas tools))) mp.max_retries 0 0 "" =
        (some resp, k, log) →
      reconcile j resp = Except.error e →
      chat j network st messages mp tools ru =
        (⟨((if ru then st.message_history else []) ++ oms) ++
            resp.output.map WireItem.fromOutput⟩, Except.error e)) := by
  refine ⟨?_, ?_, ?_⟩
  · intro e hp
    exact chat_parse_error j network st messages mp tools ru e hp
  · intro oms s log hp hra
    exact chat_retries_exhausted j network st messages oms mp tools ru
      s log hp hra
  · intro oms resp k log e hp hra hrec
    rw [chat_net_ok j network st messages oms mp tools ru resp k log hp hra,
      hrec]

/-- Claim C9 witness: an invalid-role message makes chat raise with the
history untouched. -/
theorem claim_C9_witness :
    chat (fun _ => some []) (fun _ _ => Except.error "x")
      ⟨[WireItem.roleText "system" "seed"]⟩
      [⟨"bot", some "hi", none, none⟩]
      ⟨"gpt-4o", 1, 1, 10, 1⟩ none true =
      (⟨[WireItem.roleText "system" "seed"]⟩,
        Except.error "Invalid message role: bot") :=
  ( claim_C9_theorem (fun _ => some []) (fun _ _ => Except.error "x")
    ⟨[WireItem.roleText "system" "seed"]⟩ [⟨"bot", some "hi", none, none⟩]
    ⟨"gpt-4o", 1, 1, 10, 1⟩ none true).1 "Invalid message role: bot" rfl
